import Mathlib

/-!
Verification of the session/request orchestration core of the reqres demo
client (a TypeScript browser app).  The relevant source lives in
`src/config.ts` (configuration shape), `src/api.ts` (transport client and
CRUD calls) and `src/App.tsx` (session store, auth guards, pagination and
delete/toggle controllers).  Pure functions are embedded directly; the
ambient pieces (JS runtime values read back from `localStorage`,
`JSON.parse`, `new Date(...).getTime()`, `envConfig`) are made explicit
parameters: a stored raw string is represented by its parse outcome, date
parsing by a `String → Option Int` parameter (milliseconds since epoch,
`none` for `NaN`), and the ambient `envConfig.baseUrl` by an explicit
`envBaseUrl : String` argument.
-/

/-- A runtime JavaScript value as produced by `JSON.parse`: null, booleans,
numbers, strings, arrays and objects.  Objects keep their fields as an
association list; `JSON.parse` yields unique keys, and lookup takes the
first match. -/
inductive JsValue where
  | null
  | bool (b : Bool)
  | num (n : Int)
  | str (s : String)
  | arr (elems : List JsValue)
  | obj (fields : List (String × JsValue))

/-- First-match lookup of a field name in an object's field list. -/
def lookupField : List (String × JsValue) → String → Option JsValue
  | [], _ => none
  | (k, v) :: rest, key => if k = key then some v else lookupField rest key

/-- Property access `v?.key`: a field lookup on an object, `undefined`
(`none`) on every other value, as optional chaining gives in JS. -/
def JsValue.get : JsValue → String → Option JsValue
  | JsValue.obj fields, key => lookupField fields key
  | _, _ => none

/-- JavaScript truthiness of a value: `null`, `false`, `0` and `""` are
falsy; every other value (including any array or object) is truthy. -/
def JsValue.truthy : JsValue → Bool
  | JsValue.null => false
  | JsValue.bool b => b
  | JsValue.num n => n ≠ 0
  | JsValue.str s => s ≠ ""
  | JsValue.arr _ => true
  | JsValue.obj _ => true

/-- Truthiness of a possibly-`undefined` value (`none` is `undefined`,
which is falsy). -/
def optTruthy : Option JsValue → Bool
  | none => false
  | some v => v.truthy

/-- Optional chaining through a possibly-`undefined` receiver:
`v?.key` where `v` itself may be `undefined`. -/
def optGet (v : Option JsValue) (key : String) : Option JsValue :=
  match v with
  | none => none
  | some j => j.get key

/-- The `.replace(/\/$/, "")` idiom used on base URLs: strips one trailing
slash if present. -/
def stripTrailingSlash (s : String) : String :=
  if s.data.getLast? = some '/' then s.dropRight 1 else s

/-- Configuration value from `src/config.ts` (`DemoConfig`).  `projectId`
is `number | null`; the three keys and the slug are strings, with absence
represented by the empty string (as `envConfig` produces). -/
structure DemoConfig where
  baseUrl : String
  projectId : Option Int
  publicProjectKey : String
  manageProjectKey : String
  collectionSlug : String
deriving DecidableEq

/-- Session value from `src/api.ts` (`Session`). -/
structure Session where
  token : String
  expiresAt : String
  projectId : Int
  email : String
deriving DecidableEq

/-- The JS object a `Session` serializes to (the `session` field of the
stored wrapper). -/
def Session.toJs (s : Session) : JsValue :=
  JsValue.obj [("token", JsValue.str s.token),
               ("expiresAt", JsValue.str s.expiresAt),
               ("projectId", JsValue.num s.projectId),
               ("email", JsValue.str s.email)]

/-- `normalizeBaseUrl` from `App.tsx`: uses the given value, falling back
to the ambient `envConfig.baseUrl`, then the empty string, and strips a
trailing slash.  The ambient environment base URL is the explicit
`envBaseUrl` argument here. -/
def normalizeBaseUrl (envBaseUrl : String) (value : String) : String :=
  stripTrailingSlash (if value ≠ "" then value else if envBaseUrl ≠ "" then envBaseUrl else "")

/-- What the client-local storage holds under the session key, seen
through `localStorage.getItem` and `JSON.parse`: no entry, an empty
string, a string `JSON.parse` rejects, or a parsed JS value. -/
inductive StorageContent where
  | absent
  | emptyStr
  | malformed
  | parsed (j : JsValue)

/-- Outcome of `loadStoredSession`: the returned session object (as the
raw JS value the code returns, `none` for `null`) and whether
`localStorage.removeItem` was called on the way. -/
structure LoadResult where
  result : Option JsValue
  purged : Bool

/-- The interpreted `StoredSession` wrapper inside `loadStoredSession`:
the `stored` local after the legacy-shape adaptation. -/
structure StoredFields where
  session : Option JsValue
  baseUrl : Option JsValue
  projectId : Option JsValue

/-- `loadStoredSession` from `App.tsx`.  `raw` is the storage content under
`SESSION_STORAGE_KEY`; `JSON.parse` failure is the `malformed` case, caught
by the surrounding `try` (which returns `null` without purging).  The
legacy token-only shape is adapted to a wrapper with `baseUrl: ""`; a
wrapper whose base URL is falsy or differs from the current normalized
base URL is purged, as is one whose project id conflicts with the
configuration's. -/
def loadStoredSession (config : DemoConfig) (envBaseUrl : String) (raw : StorageContent) : LoadResult :=
  match raw with
  | StorageContent.absent => ⟨none, false⟩
  | StorageContent.emptyStr => ⟨none, false⟩
  | StorageContent.malformed => ⟨none, false⟩
  | StorageContent.parsed j =>
    let stored : Option StoredFields :=
      if optTruthy (j.get "session") then
        some ⟨j.get "session", j.get "baseUrl", j.get "projectId"⟩
      else if optTruthy (j.get "token") then
        some ⟨some j, some (JsValue.str ""),
              some ((j.get "projectId").getD JsValue.null)⟩
      else none
    match stored with
    | none => ⟨none, false⟩
    | some st =>
      if ¬ optTruthy (optGet st.session "token") then ⟨none, false⟩
      else
        let expectedBaseUrl := normalizeBaseUrl envBaseUrl config.baseUrl
        let baseUrlMatches : Bool := match st.baseUrl with
          | some (JsValue.str b) => b == expectedBaseUrl
          | _ => false
        if !(optTruthy st.baseUrl) || !baseUrlMatches then
          ⟨none, true⟩
        else
          let cfgPidTruthy : Bool := match config.projectId with
            | some n => n != 0
            | none => false
          let pidMatches : Bool := match config.projectId, st.projectId with
            | some n, some (JsValue.num m) => n == m
            | _, _ => false
          if cfgPidTruthy && optTruthy st.projectId && !pidMatches then
            ⟨none, true⟩
          else ⟨st.session, false⟩

/-- `persistSession` from `App.tsx`: the JS value written to storage — the
session wrapped with the normalized base URL and the session's project id
(`session.projectId ?? null` is always the number, since the field is
present). -/
def persistSession (session : Session) (config : DemoConfig) (envBaseUrl : String) : JsValue :=
  JsValue.obj [("session", session.toJs),
               ("baseUrl", JsValue.str (normalizeBaseUrl envBaseUrl config.baseUrl)),
               ("projectId", JsValue.num session.projectId)]

/-- `hasStoredSessionToken` from `App.tsx`:
`Boolean(loadStoredSession(config)?.token)`. -/
def hasStoredSessionToken (config : DemoConfig) (envBaseUrl : String) (raw : StorageContent) : Bool :=
  optTruthy (optGet (loadStoredSession config envBaseUrl raw).result "token")

/-- `isSessionExpired` from `App.tsx`.  `parseDate` stands for
`new Date(value).getTime()` (`none` when the result is `NaN`); `now` is
`Date.now()` in milliseconds.  A missing session, a falsy `expiresAt`, an
unparseable `expiresAt`, or a parsed time at or before `now` all count as
expired. -/
def isSessionExpired (parseDate : String → Option Int) (now : Int) : Option Session → Bool
  | none => true
  | some s =>
    if s.expiresAt = "" then true
    else match parseDate s.expiresAt with
      | none => true
      | some t => decide (t ≤ now)

/-- `ensureActiveSession` from `App.tsx`, reduced to its returned value:
`none` when the session is missing, when no stored token remains in the
store, or when the session is expired (the UI error/clearing side effects
are not modelled); otherwise the session itself. -/
def ensureActiveSession (config : DemoConfig) (envBaseUrl : String) (raw : StorageContent)
    (parseDate : String → Option Int) (now : Int)
    (activeSession : Option Session) : Option Session :=
  match activeSession with
  | none => none
  | some s =>
    if ¬ hasStoredSessionToken config envBaseUrl raw then none
    else if isSessionExpired parseDate now (some s) then none
    else some s

/-- Credential class of a request, the `require` option of `jsonRequest` in
`src/api.ts` (`'public' | 'manage' | 'session'`). -/
inductive ReqCred where
  | publicKey
  | manage
  | session
deriving DecidableEq

/-- The options `jsonRequest` consumes, with the body reduced to its
presence (only the `Content-Type` header depends on it here) and the
residual `init.headers` kept as explicit pairs. -/
structure RequestOptions where
  token : Option String := none
  usePublicProjectKey : Bool := false
  useManageProjectKey : Bool := false
  hasBody : Bool := false
  require : Option ReqCred := none
  extraHeaders : List (String × String) := []

/-- Assignment to one key of a JS header object: replaces the value in
place if the key exists, appends otherwise. -/
def setHeader : List (String × String) → String → String → List (String × String)
  | [], key, value => [(key, value)]
  | (k, v) :: rest, key, value =>
    if k = key then (key, value) :: rest else (k, v) :: setHeader rest key value

/-- Folding several assignments, as an object-literal spread does
(later entries override earlier ones key by key). -/
def applyHeaders (init : List (String × String)) : List (String × String) → List (String × String)
  | [] => init
  | (k, v) :: rest => applyHeaders (setHeader init k v) rest

/-- First-match lookup of a header value. -/
def getHeader : List (String × String) → String → Option String
  | [], _ => none
  | (k, v) :: rest, key => if k = key then some v else getHeader rest key

/-- The request `jsonRequest` would hand to `fetch`, minus the body. -/
structure PreparedRequest where
  url : String
  headers : List (String × String)

/-- JS falsiness of an optional string (`!token`): `undefined` or `""`. -/
def strOptFalsy : Option String → Bool
  | none => true
  | some s => s == ""

/-- The pre-send phase of `jsonRequest` from `src/api.ts`: URL
construction, header assembly and the credential checks, each of which
throws an `ApiError` (the `Except.error` message) before `fetch` is ever
reached.  An `Except.ok` value is what the network call would be made
with. -/
def jsonRequestPrepare (config : DemoConfig) (path : String) (options : RequestOptions) :
    Except String PreparedRequest :=
  let base := stripTrailingSlash (if config.baseUrl ≠ "" then config.baseUrl else "https://reqres.in")
  let url := base ++ (if path.data.head? = some '/' then path else "/" ++ path)
  let headers := applyHeaders
    (applyHeaders [("Accept", "application/json")]
      (if options.hasBody then [("Content-Type", "application/json")] else []))
    options.extraHeaders
  if options.require = some ReqCred.session ∧ strOptFalsy options.token then
    Except.error "Access is required for this action."
  else
    let headers := if options.require = some ReqCred.session then
        setHeader headers "Authorization" ("Bearer " ++ options.token.getD "")
      else headers
    if options.require = some ReqCred.publicKey ∧ config.publicProjectKey = "" then
      Except.error "Public access key is missing."
    else
      let headers := if options.require = some ReqCred.publicKey then
          setHeader headers "x-api-key" config.publicProjectKey
        else if options.usePublicProjectKey && config.publicProjectKey != "" then
          setHeader headers "x-api-key" config.publicProjectKey
        else headers
      if options.require = some ReqCred.manage ∧ config.manageProjectKey = "" then
        Except.error "Management access key is missing."
      else
        let headers := if options.require = some ReqCred.manage then
            setHeader headers "x-api-key" config.manageProjectKey
          else if options.useManageProjectKey && config.manageProjectKey != "" then
            setHeader headers "x-api-key" config.manageProjectKey
          else headers
        Except.ok { url := url, headers := headers }

/-- The JS `typeof data === 'object'` test on the parsed body: true for
`null` (the legacy `typeof null` quirk), arrays and objects; false for
booleans, numbers and strings.  `none` stands for the `data = null` of an
empty body. -/
def typeofObject : Option JsValue → Bool
  | none => true
  | some JsValue.null => true
  | some (JsValue.arr _) => true
  | some (JsValue.obj _) => true
  | some _ => false

/-- The error-message selection of `jsonRequest` on a non-ok response:
`(typeof data === 'object' && data?.error) || (typeof data === 'object'
&& data?.message) || response.statusText || 'Request failed'`.  `data` is
the parsed body (`none` when the body was empty); the result is the JS
value passed to `new ApiError`. -/
def errorMessageFor (data : Option JsValue) (statusText : String) : JsValue :=
  let errField := if typeofObject data then optGet data "error" else none
  if optTruthy errField then errField.getD JsValue.null
  else
    let msgField := if typeofObject data then optGet data "message" else none
    if optTruthy msgField then msgField.getD JsValue.null
    else if statusText ≠ "" then JsValue.str statusText
    else JsValue.str "Request failed"

/-- Modelled from the spec sentence for claim comparison: the message is
"the `error` field of a parsed JSON body if present, else the `message`
field, else the HTTP status text, else the literal string
\"Request failed\"" — presence of the field, not its truthiness, decides
each step. -/
def specErrorMessage (data : Option JsValue) (statusText : String) : JsValue :=
  match optGet data "error" with
  | some e => e
  | none =>
    match optGet data "message" with
    | some m => m
    | none => if statusText ≠ "" then JsValue.str statusText else JsValue.str "Request failed"

/-- The `Number(x) || d` idiom of `fetchTodos`: an absent (or `NaN`) or
zero value falls back to the default. -/
def numberOr (value : Option Int) (d : Int) : Int :=
  match value with
  | none => d
  | some n => if n = 0 then d else n

/-- Effective page computed by `fetchTodos` in `src/api.ts`:
`Math.max(1, Number(opts.page) || 1)`. -/
def effectivePage (page : Option Int) : Int :=
  max 1 (numberOr page 1)

/-- Effective limit computed by `fetchTodos` in `src/api.ts`:
`Math.min(Math.max(Number(opts.limit) || 10, 1), 100)`. -/
def effectiveLimit (limit : Option Int) : Int :=
  min (max (numberOr limit 10) 1) 100

/-- The query path `fetchTodos` requests (the collection slug is used as
already URI-encoded). -/
def fetchTodosPath (slug : String) (page : Option Int) (limit : Option Int) (orderAsc : Bool) : String :=
  "/app/collections/" ++ slug ++ "/records?order=" ++ (if orderAsc then "asc" else "desc") ++
    "&limit=" ++ toString (effectiveLimit limit) ++ "&page=" ++ toString (effectivePage page)

/-- The record payload shape (`TodoPayload` in `src/api.ts`). -/
structure TodoPayload where
  title : String
  notes : String
  completed : Bool
deriving DecidableEq

/-- `normalizeTodo` from `App.tsx`: projects a record's raw `data` object
onto the `{title, notes, completed}` schema — non-string titles/notes
become `""`, the completed flag accepts booleans, the string
`"true"` (case-insensitively), and otherwise JS truthiness. -/
def normalizeTodo (data : Option JsValue) : TodoPayload :=
  { title := match optGet data "title" with
      | some (JsValue.str s) => s
      | _ => ""
    notes := match optGet data "notes" with
      | some (JsValue.str s) => s
      | _ => ""
    completed := match optGet data "completed" with
      | some (JsValue.bool b) => b
      | some (JsValue.str s) => String.mk (s.data.map Char.toLower) == "true"
      | some v => v.truthy
      | none => false }

/-- The payload `handleToggleTodo` sends: the normalized current fields
with the completion flag flipped. -/
def togglePayload (data : Option JsValue) : TodoPayload :=
  let current := normalizeTodo data
  { current with completed := !current.completed }

/-- The JS object a `TodoPayload` serializes to as the `data` body of the
update request. -/
def TodoPayload.toJs (p : TodoPayload) : JsValue :=
  JsValue.obj [("title", JsValue.str p.title),
               ("notes", JsValue.str p.notes),
               ("completed", JsValue.bool p.completed)]

/-- Pagination metadata (`PaginationMeta` in `src/api.ts`). -/
structure PaginationMeta where
  page : Int
  limit : Int
  total : Int
  pages : Int
deriving DecidableEq

/-- The page `handleDeleteTodo` re-lists after a delete:
`todoMeta && todos.length <= 1 && todoMeta.page > 1 ? todoMeta.page - 1
: todoMeta?.page || 1`. -/
def deleteNextPage (todoMeta : Option PaginationMeta) (todosLength : Nat) : Int :=
  match todoMeta with
  | some meta =>
    if todosLength ≤ 1 ∧ meta.page > 1 then meta.page - 1
    else if meta.page ≠ 0 then meta.page else 1
  | none => 1

/-- JS truthiness of the `number | null` project id (`!config.projectId`
is true for `null` and for `0`). -/
def intOptTruthy : Option Int → Bool
  | none => false
  | some n => n != 0

/-- `configWarnings` from `App.tsx`: one discrete message per missing
configuration item, in source order. -/
def configWarnings (config : DemoConfig) : List String :=
  (if !intOptTruthy config.projectId then ["Add a project ID"] else []) ++
  (if config.publicProjectKey == "" then ["Add the public project key"] else []) ++
  (if config.manageProjectKey == "" then ["Add the manage project key"] else []) ++
  (if config.collectionSlug == "" then ["Set a collection slug"] else [])

/-- `configReady` from `App.tsx`: no warnings. -/
def configReady (config : DemoConfig) : Bool :=
  configWarnings config = []

/-- Modelled from the amended claim for the message cascade: the first
truthy value among the body's `error` field, the body's `message` field,
the status text and the literal `"Request failed"` — property access on a
non-object body yields `undefined`, so no object guard is needed. -/
def amendedErrorMessage (data : Option JsValue) (statusText : String) : JsValue :=
  if optTruthy (optGet data "error") then (optGet data "error").getD JsValue.null
  else if optTruthy (optGet data "message") then (optGet data "message").getD JsValue.null
  else if statusText ≠ "" then JsValue.str statusText
  else JsValue.str "Request failed"

/-- A concrete configuration used by witnesses: project 1, both keys and
the slug present. -/
def witnessConfig : DemoConfig :=
  ⟨"https://x", some 1, "pub", "mng", "todos"⟩

/-- A concrete session belonging to project 1. -/
def witnessSession : Session :=
  ⟨"tok", "2099-01-01T00:00:00Z", 1, "a@b.com"⟩

/-- Storage holding `witnessSession` persisted under `witnessConfig`. -/
def witnessStorage : StorageContent :=
  StorageContent.parsed (persistSession witnessSession witnessConfig "")

/-- A concrete date parser: the witness session's expiry stamp parses to
time 100, everything else is `NaN`. -/
def witnessParseDate : String → Option Int :=
  fun s => if s = "2099-01-01T00:00:00Z" then some 100 else none

/-- C1: a session whose `expiresAt` parses to a timestamp exactly equal to
the current time is treated as expired by `isSessionExpired` and rejected
by `ensureActiveSession`; a session whose parsed expiry is strictly
greater than the current time and whose persisted copy is still in the
store passes `ensureActiveSession`. -/
theorem c1_expiry_boundary (parseDate : String → Option Int) (now t : Int)
    (s : Session) (config : DemoConfig) (envBaseUrl : String) (raw : StorageContent)
    (hp : parseDate s.expiresAt = some t) (hne : s.expiresAt ≠ "") :
    (t = now →
      isSessionExpired parseDate now (some s) = true ∧
      ensureActiveSession config envBaseUrl raw parseDate now (some s) = none) ∧
    (now < t → hasStoredSessionToken config envBaseUrl raw = true →
      ensureActiveSession config envBaseUrl raw parseDate now (some s) = some s) := by
  have hexp : ∀ now' : Int, isSessionExpired parseDate now' (some s) = decide (t ≤ now') := by
    intro now'
    simp [isSessionExpired, hne, hp]
  constructor
  · intro h
    have h1 : isSessionExpired parseDate now (some s) = true := by
      rw [hexp, h]
      simp
    refine ⟨h1, ?_⟩
    unfold ensureActiveSession
    by_cases hst : hasStoredSessionToken config envBaseUrl raw
    · simp [hst, h1]
    · simp [hst]
  · intro hlt hstored
    have h1 : isSessionExpired parseDate now (some s) = false := by
      simp [hexp]
      omega
    unfold ensureActiveSession
    simp [hstored, h1]

/-- Witness for C1: the stored witness session, expiring at time 100, is
expired at `now = 100` and valid at `now = 99`. -/
theorem c1_expiry_boundary_witness :
    (isSessionExpired witnessParseDate 100 (some witnessSession) = true ∧
      ensureActiveSession witnessConfig "" witnessStorage witnessParseDate 100
        (some witnessSession) = none) ∧
    ensureActiveSession witnessConfig "" witnessStorage witnessParseDate 99
      (some witnessSession) = some witnessSession := by
  constructor
  · exact (c1_expiry_boundary witnessParseDate 100 100 witnessSession witnessConfig ""
      witnessStorage rfl (by decide)).1 rfl
  · exact (c1_expiry_boundary witnessParseDate 99 100 witnessSession witnessConfig ""
      witnessStorage rfl (by decide)).2 (by decide) (by decide)

/-- C2 counterexample: requesting `pageSize = 0` yields an effective
pageSize of 10 (the default, because `Number(opts.limit) || 10` treats 0
as unspecified), not 1 as the claim states. -/
theorem c2_page_size_zero_counterexample :
    effectiveLimit (some 0) = 10 ∧ (10 : Int) ≠ 1 := by
  constructor
  · rfl
  · decide

/-- C2 amended: a requested `pageSize` of 0 falls back to the default
effective pageSize 10; a requested `pageSize` of 500 is clamped to 100;
a requested `page` of 0 falls back to effective page 1 — as the request
path `fetchTodos` builds shows. -/
theorem c2_pagination_clamp_amended :
    effectiveLimit (some 0) = 10 ∧
    effectiveLimit (some 500) = 100 ∧
    effectivePage (some 0) = 1 ∧
    fetchTodosPath "todos" (some 0) (some 500) false =
      "/app/collections/todos/records?order=desc&limit=100&page=1" := by
  refine ⟨rfl, rfl, rfl, rfl⟩

/-- A session whose `projectId` (2) differs from `witnessConfig`'s (1). -/
def projectTwoSession : Session := ⟨"tok", "2099-01-01T00:00:00Z", 2, "a@b.com"⟩

/-- C3 counterexample: persisting a project-2 session under the project-1
configuration and loading under the same unchanged configuration does not
return the session — the project-id guard purges it — refuting the
unconditional round-trip claim. -/
theorem c3_round_trip_counterexample :
    (loadStoredSession witnessConfig "" (StorageContent.parsed
        (persistSession projectTwoSession witnessConfig ""))).result = none ∧
    (loadStoredSession witnessConfig "" (StorageContent.parsed
        (persistSession projectTwoSession witnessConfig ""))).purged = true ∧
    (none : Option JsValue) ≠ some projectTwoSession.toJs := by
  refine ⟨rfl, rfl, by simp⟩

/-- C3 amended: the save/load round trip returns the same session and does
not purge, provided the session token is non-empty, the configuration's
normalized base URL is non-empty, and the configuration's project id does
not conflict with the session's (both truthy and different); loading after
the base URL changed to a different normalized value returns absent and
purges storage. -/
theorem c3_round_trip_amended (session : Session) (config : DemoConfig) (envBaseUrl : String)
    (htok : session.token ≠ "")
    (hbase : normalizeBaseUrl envBaseUrl config.baseUrl ≠ "")
    (hpid : ¬ (intOptTruthy config.projectId = true ∧ session.projectId ≠ 0 ∧
        config.projectId ≠ some session.projectId)) :
    (loadStoredSession config envBaseUrl (StorageContent.parsed
        (persistSession session config envBaseUrl))).result = some session.toJs ∧
    (loadStoredSession config envBaseUrl (StorageContent.parsed
        (persistSession session config envBaseUrl))).purged = false ∧
    ∀ config' : DemoConfig,
      normalizeBaseUrl envBaseUrl config'.baseUrl ≠ normalizeBaseUrl envBaseUrl config.baseUrl →
      loadStoredSession config' envBaseUrl (StorageContent.parsed
        (persistSession session config envBaseUrl)) = ⟨none, true⟩ := by
  have hsame : loadStoredSession config envBaseUrl (StorageContent.parsed
      (persistSession session config envBaseUrl)) = ⟨some session.toJs, false⟩ := by
    rcases hc : config.projectId with _ | n
    · simp [loadStoredSession, persistSession, Session.toJs, JsValue.get, lookupField,
        optGet, optTruthy, JsValue.truthy, htok, hbase, hc]
    · by_cases hn : n = 0
      · simp [loadStoredSession, persistSession, Session.toJs, JsValue.get, lookupField,
          optGet, optTruthy, JsValue.truthy, htok, hbase, hc, hn]
      · by_cases hs : session.projectId = 0
        · simp [loadStoredSession, persistSession, Session.toJs, JsValue.get, lookupField,
            optGet, optTruthy, JsValue.truthy, htok, hbase, hc, hn, hs]
        · have heq : n = session.projectId := by
            by_contra hne
            exact hpid ⟨by simp [intOptTruthy, hc, hn], hs, by simp [hc]; omega⟩
          simp [loadStoredSession, persistSession, Session.toJs, JsValue.get, lookupField,
            optGet, optTruthy, JsValue.truthy, htok, hbase, hc, hn, hs, heq]
  refine ⟨by rw [hsame], by rw [hsame], ?_⟩
  intro config' hdiff
  have hne : (normalizeBaseUrl envBaseUrl config.baseUrl ==
      normalizeBaseUrl envBaseUrl config'.baseUrl) = false := by
    simp only [beq_eq_false_iff_ne, ne_eq]
    exact fun h => hdiff h.symm
  simp [loadStoredSession, persistSession, Session.toJs, JsValue.get, lookupField,
    optGet, optTruthy, JsValue.truthy, htok, hbase, hne]

/-- A persisted value in the legacy shape: a bare session object with a
token but no `baseUrl`/`projectId` wrapping. -/
def legacyStoredSession : JsValue :=
  JsValue.obj [("token", JsValue.str "abc"),
               ("expiresAt", JsValue.str "2099-01-01T00:00:00Z"),
               ("projectId", JsValue.num 1),
               ("email", JsValue.str "a@b.com")]

/-- C4 (code bug): a legacy bare-session value is never accepted — the
legacy adaptation gives it the stored base URL `""`, which is falsy, so
the very next check purges it and returns absent under every
configuration, although the code's own comment says legacy token-only
storage is accepted. -/
theorem c4_legacy_shape_rejected (config : DemoConfig) (envBaseUrl : String) :
    loadStoredSession config envBaseUrl (StorageContent.parsed legacyStoredSession) =
      ⟨none, true⟩ := by
  simp [loadStoredSession, legacyStoredSession, JsValue.get, lookupField, optGet,
    optTruthy, JsValue.truthy]

/-- Witness for the amended C3: the witness session round-trips under its
own configuration, and is purged when loaded under a different base URL. -/
theorem c3_round_trip_amended_witness :
    (loadStoredSession witnessConfig "" (StorageContent.parsed
        (persistSession witnessSession witnessConfig ""))).result = some witnessSession.toJs ∧
    (loadStoredSession witnessConfig "" (StorageContent.parsed
        (persistSession witnessSession witnessConfig ""))).purged = false ∧
    loadStoredSession ⟨"https://y", some 1, "pub", "mng", "todos"⟩ "" (StorageContent.parsed
        (persistSession witnessSession witnessConfig "")) = ⟨none, true⟩ := by
  obtain ⟨h1, h2, h3⟩ := c3_round_trip_amended witnessSession witnessConfig ""
    (by decide) (by decide) (by decide)
  exact ⟨h1, h2, h3 ⟨"https://y", some 1, "pub", "mng", "todos"⟩ (by decide)⟩

/-- C5: the transport client rejects, before any request is built, a
session call with an absent or empty token and a public/manage call whose
configured key is empty — each with the matching missing-credential
error — and otherwise attaches the `Authorization: Bearer` header
(session) or the `x-api-key` header (public/manage). -/
theorem c5_credential_checks (config : DemoConfig) (path : String) (tok : Option String) :
    (strOptFalsy tok = true →
      jsonRequestPrepare config path { token := tok, require := some ReqCred.session } =
        Except.error "Access is required for this action.") ∧
    (∀ t : String, tok = some t → t ≠ "" →
      (jsonRequestPrepare config path { token := tok, require := some ReqCred.session }).map
          (fun pr => getHeader pr.headers "Authorization") =
        Except.ok (some ("Bearer " ++ t))) ∧
    (config.publicProjectKey = "" →
      jsonRequestPrepare config path { require := some ReqCred.publicKey } =
        Except.error "Public access key is missing.") ∧
    (config.publicProjectKey ≠ "" →
      (jsonRequestPrepare config path { require := some ReqCred.publicKey }).map
          (fun pr => getHeader pr.headers "x-api-key") =
        Except.ok (some config.publicProjectKey)) ∧
    (config.manageProjectKey = "" →
      jsonRequestPrepare config path { require := some ReqCred.manage } =
        Except.error "Management access key is missing.") ∧
    (config.manageProjectKey ≠ "" →
      (jsonRequestPrepare config path { require := some ReqCred.manage }).map
          (fun pr => getHeader pr.headers "x-api-key") =
        Except.ok (some config.manageProjectKey)) := by
  refine ⟨?_, ?_, ?_, ?_, ?_, ?_⟩
  · intro h
    simp [jsonRequestPrepare, h]
  · intro t ht htne
    subst ht
    simp [jsonRequestPrepare, strOptFalsy, htne, applyHeaders, setHeader, getHeader,
      Except.map]
  · intro h
    simp [jsonRequestPrepare, h]
  · intro h
    simp [jsonRequestPrepare, h, applyHeaders, setHeader, getHeader, Except.map]
  · intro h
    simp [jsonRequestPrepare, h]
  · intro h
    simp [jsonRequestPrepare, h, applyHeaders, setHeader, getHeader, Except.map]

/-- A configuration with both project keys absent. -/
def emptyKeysConfig : DemoConfig := ⟨"https://x", some 1, "", "", "todos"⟩

/-- Witness for C5: concrete missing-credential failures and concrete
attached headers. -/
theorem c5_credential_checks_witness :
    jsonRequestPrepare emptyKeysConfig "/p" { token := some "", require := some ReqCred.session } =
      Except.error "Access is required for this action." ∧
    jsonRequestPrepare emptyKeysConfig "/p" { require := some ReqCred.publicKey } =
      Except.error "Public access key is missing." ∧
    jsonRequestPrepare emptyKeysConfig "/p" { require := some ReqCred.manage } =
      Except.error "Management access key is missing." ∧
    (jsonRequestPrepare witnessConfig "/p" { token := some "tk", require := some ReqCred.session }).map
        (fun pr => getHeader pr.headers "Authorization") = Except.ok (some ("Bearer " ++ "tk")) ∧
    (jsonRequestPrepare witnessConfig "/p" { require := some ReqCred.publicKey }).map
        (fun pr => getHeader pr.headers "x-api-key") = Except.ok (some witnessConfig.publicProjectKey) ∧
    (jsonRequestPrepare witnessConfig "/p" { require := some ReqCred.manage }).map
        (fun pr => getHeader pr.headers "x-api-key") = Except.ok (some witnessConfig.manageProjectKey) := by
  refine ⟨?_, ?_, ?_, ?_, ?_, ?_⟩
  · exact (c5_credential_checks emptyKeysConfig "/p" (some "")).1 (by decide)
  · exact (c5_credential_checks emptyKeysConfig "/p" none).2.2.1 rfl
  · exact (c5_credential_checks emptyKeysConfig "/p" none).2.2.2.2.1 rfl
  · exact (c5_credential_checks witnessConfig "/p" (some "tk")).2.1 "tk" rfl (by decide)
  · exact (c5_credential_checks witnessConfig "/p" none).2.2.2.1 (by decide)
  · exact (c5_credential_checks witnessConfig "/p" none).2.2.2.2.2 (by decide)

/-- A non-ok response body whose `error` field is present but empty while
`message` is non-empty. -/
def emptyErrorBody : Option JsValue :=
  some (JsValue.obj [("error", JsValue.str ""), ("message", JsValue.str "boom")])

/-- C6 counterexample: with a body carrying a present-but-empty `error`
field and a non-empty `message` field, the code picks the `message` field,
not the `error` field the claim's present-field cascade would pick. -/
theorem c6_message_cascade_counterexample :
    errorMessageFor emptyErrorBody "Bad Request" = JsValue.str "boom" ∧
    specErrorMessage emptyErrorBody "Bad Request" = JsValue.str "" ∧
    JsValue.str "boom" ≠ JsValue.str "" := by
  refine ⟨rfl, rfl, by simp⟩

/-- C6 amended: the message is the first truthy value in the cascade —
the body's `error` field, then its `message` field, then the status text
(if non-empty), then the literal `"Request failed"`; the code's
`typeof data === 'object'` guard is redundant because property access on
a non-object yields `undefined`. -/
theorem c6_message_cascade_amended (data : Option JsValue) (statusText : String) :
    errorMessageFor data statusText = amendedErrorMessage data statusText := by
  rcases data with _ | j
  · rfl
  · cases j <;> rfl

/-- C7: when the deleted record was the only item on the current page and
that page is beyond page 1, the delete handler re-lists the previous page;
in every other reachable delete (at least one record listed, server page
at least 1) it re-lists the current page. -/
theorem c7_delete_next_page (meta : PaginationMeta) (todosLength : Nat)
    (hlen : 1 ≤ todosLength) (hpage : 1 ≤ meta.page) :
    (todosLength = 1 ∧ 1 < meta.page →
      deleteNextPage (some meta) todosLength = meta.page - 1) ∧
    (¬ (todosLength = 1 ∧ 1 < meta.page) →
      deleteNextPage (some meta) todosLength = meta.page) := by
  constructor
  · rintro ⟨h1, h2⟩
    simp [deleteNextPage, h1, h2]
  · intro h
    rcases Nat.lt_or_ge 1 todosLength with hgt | hle
    · have hlang : ¬ (todosLength ≤ 1) := by omega
      simp [deleteNextPage, hlang]
      omega
    · have h1 : todosLength = 1 := by omega
      have h2 : ¬ (1 < meta.page) := fun hc => h ⟨h1, hc⟩
      have hp1 : meta.page = 1 := by omega
      simp [deleteNextPage, hp1]

/-- Witness for C7: deleting the single record on page 3 re-lists page 2;
deleting one of two records on page 3 re-lists page 3. -/
theorem c7_delete_next_page_witness :
    deleteNextPage (some ⟨3, 10, 21, 3⟩) 1 = 2 ∧
    deleteNextPage (some ⟨3, 10, 21, 3⟩) 2 = 3 := by
  constructor
  · exact (c7_delete_next_page ⟨3, 10, 21, 3⟩ 1 (by decide) (by decide)).1 ⟨rfl, by decide⟩
  · exact (c7_delete_next_page ⟨3, 10, 21, 3⟩ 2 (by decide) (by decide)).2 (by decide)

/-- A record's raw `data` carrying an extension field beyond the
`{title, notes, completed}` schema. -/
def extendedTodoData : JsValue :=
  JsValue.obj [("title", JsValue.str "t"),
               ("notes", JsValue.str "n"),
               ("completed", JsValue.bool false),
               ("priority", JsValue.str "high")]

/-- C8 counterexample: the toggle payload drops the record's `priority`
extension field, so the full-field replacement payload does not preserve
every field other than the completion flag. -/
theorem c8_toggle_counterexample :
    (TodoPayload.toJs (togglePayload (some extendedTodoData))).get "priority" = none ∧
    extendedTodoData.get "priority" = some (JsValue.str "high") ∧
    (TodoPayload.toJs (togglePayload (some extendedTodoData))).get "completed" =
      some (JsValue.bool true) ∧
    (none : Option JsValue) ≠ some (JsValue.str "high") := by
  refine ⟨rfl, rfl, rfl, by simp⟩

/-- C8 amended: for a record whose `data` carries a string `title`, a
string `notes` and `completed:false`, the toggle payload is exactly
`{title, notes, completed:true}` — the title and notes are preserved and
the flag flipped; fields outside this schema are not part of the payload. -/
theorem c8_toggle_amended (data : JsValue) (title notes : String)
    (ht : data.get "title" = some (JsValue.str title))
    (hn : data.get "notes" = some (JsValue.str notes))
    (hc : data.get "completed" = some (JsValue.bool false)) :
    togglePayload (some data) = ⟨title, notes, true⟩ := by
  simp [togglePayload, normalizeTodo, optGet, ht, hn, hc]

/-- Witness for the amended C8 at a concrete three-field record. -/
theorem c8_toggle_amended_witness :
    togglePayload (some (JsValue.obj [("title", JsValue.str "Buy milk"),
        ("notes", JsValue.str ""), ("completed", JsValue.bool false)])) =
      ⟨"Buy milk", "", true⟩ := by
  exact c8_toggle_amended _ "Buy milk" "" rfl rfl rfl

/-- A configuration whose project id is present as the integer 0 and whose
other three items are all present. -/
def zeroProjectConfig : DemoConfig := ⟨"https://x", some 0, "pub", "mng", "todos"⟩

/-- C9 counterexample: with all four items present but the project id
equal to 0, the warning list is not empty — the falsy project id is
reported as missing — refuting the claim that presence of all four items
gives an empty warning list. -/
theorem c9_config_warnings_counterexample :
    zeroProjectConfig.projectId ≠ none ∧
    zeroProjectConfig.publicProjectKey ≠ "" ∧
    zeroProjectConfig.manageProjectKey ≠ "" ∧
    zeroProjectConfig.collectionSlug ≠ "" ∧
    configWarnings zeroProjectConfig = ["Add a project ID"] ∧
    configReady zeroProjectConfig = false := by
  refine ⟨by simp [zeroProjectConfig], by decide, by decide, by decide, by decide, by decide⟩

/-- C9 amended: with presence read as JS truthiness (a zero project id
counts as missing), each single missing item yields exactly its own
warning, all items present yield no warnings, and `configReady` holds
exactly when all four are present. -/
theorem c9_config_warnings_amended (config : DemoConfig) :
    (configReady config = true ↔
      (intOptTruthy config.projectId = true ∧ config.publicProjectKey ≠ "" ∧
       config.manageProjectKey ≠ "" ∧ config.collectionSlug ≠ "")) ∧
    (intOptTruthy config.projectId = false → config.publicProjectKey ≠ "" →
      config.manageProjectKey ≠ "" → config.collectionSlug ≠ "" →
      configWarnings config = ["Add a project ID"]) ∧
    (intOptTruthy config.projectId = true → config.publicProjectKey = "" →
      config.manageProjectKey ≠ "" → config.collectionSlug ≠ "" →
      configWarnings config = ["Add the public project key"]) ∧
    (intOptTruthy config.projectId = true → config.publicProjectKey ≠ "" →
      config.manageProjectKey = "" → config.collectionSlug ≠ "" →
      configWarnings config = ["Add the manage project key"]) ∧
    (intOptTruthy config.projectId = true → config.publicProjectKey ≠ "" →
      config.manageProjectKey ≠ "" → config.collectionSlug = "" →
      configWarnings config = ["Set a collection slug"]) ∧
    (intOptTruthy config.projectId = true → config.publicProjectKey ≠ "" →
      config.manageProjectKey ≠ "" → config.collectionSlug ≠ "" →
      configWarnings config = []) := by
  cases h1 : intOptTruthy config.projectId <;>
    cases h2 : config.publicProjectKey == "" <;>
      cases h3 : config.manageProjectKey == "" <;>
        cases h4 : config.collectionSlug == "" <;>
          simp_all [configReady, configWarnings]

/-- Witness for the amended C9 at concrete configurations. -/
theorem c9_config_warnings_amended_witness :
    configWarnings ⟨"", none, "pub", "mng", "todos"⟩ = ["Add a project ID"] ∧
    configWarnings witnessConfig = [] ∧
    configReady witnessConfig = true := by
  refine ⟨?_, ?_, ?_⟩
  · exact (c9_config_warnings_amended ⟨"", none, "pub", "mng", "todos"⟩).2.1
      (by decide) (by decide) (by decide) (by decide)
  · exact (c9_config_warnings_amended witnessConfig).2.2.2.2.2
      (by decide) (by decide) (by decide) (by decide)
  · exact (c9_config_warnings_amended witnessConfig).1.mpr
      ⟨by decide, by decide, by decide, by decide⟩

/-- C10: for absent, empty or malformed storage content the load returns
absent without purging; a parsed value with no truthy token (wrapped or
bare) also yields absent; and any session object the load does return
carries a truthy token — the caller never sees anything else, and the
function is total, so no exception escapes. -/
theorem c10_load_never_throws (config : DemoConfig) (envBaseUrl : String) :
    loadStoredSession config envBaseUrl StorageContent.absent = ⟨none, false⟩ ∧
    loadStoredSession config envBaseUrl StorageContent.emptyStr = ⟨none, false⟩ ∧
    loadStoredSession config envBaseUrl StorageContent.malformed = ⟨none, false⟩ ∧
    (∀ j : JsValue, optTruthy (optGet (j.get "session") "token") = false →
      optTruthy (j.get "token") = false →
      (loadStoredSession config envBaseUrl (StorageContent.parsed j)).result = none) ∧
    (∀ raw : StorageContent, ∀ v : JsValue,
      (loadStoredSession config envBaseUrl raw).result = some v →
      optTruthy (v.get "token") = true) := by
  refine ⟨rfl, rfl, rfl, ?_, ?_⟩
  · intro j h1 h2
    by_cases hs : optTruthy (j.get "session")
    · simp [loadStoredSession, hs, h1]
    · simp [loadStoredSession, hs, h2]
  · intro raw v hres
    cases raw with
    | absent => simp [loadStoredSession] at hres
    | emptyStr => simp [loadStoredSession] at hres
    | malformed => simp [loadStoredSession] at hres
    | parsed j =>
      simp only [loadStoredSession] at hres
      split at hres
      next => simp at hres
      next st hst =>
        split at hres
        next => simp at hres
        next hguard =>
          split at hres
          next => simp at hres
          next =>
            split at hres
            next => simp at hres
            next =>
              simp only at hres
              rw [Bool.not_eq_true] at hguard
              push_neg at hguard
              rw [hres] at hguard
              simpa [optGet] using hguard

/-- Witness for C10: a parsed non-object storage value yields absent, and
absent storage loads to absent without purging. -/
theorem c10_load_never_throws_witness :
    (loadStoredSession witnessConfig "" (StorageContent.parsed (JsValue.num 5))).result = none ∧
    loadStoredSession witnessConfig "" StorageContent.absent = ⟨none, false⟩ := by
  refine ⟨?_, (c10_load_never_throws witnessConfig "").1⟩
  exact (c10_load_never_throws witnessConfig "").2.2.2.1 (JsValue.num 5) rfl rfl
